import Mathlib

/-!
Shallow embedding of the xeokit-sdk render-layer draw orchestration:
the `Ortho` projection component and the `BatchingOcclusionRenderer`
(both in src/src/scene/camera/Ortho.js), together with the external
collaborators they use (RTC coordinate helpers, section-plane state,
the GPU program wrapper), which are modelled from the specification
where their source is not part of the repository snapshot.

Numbers are modelled by exact rationals; GPU calls are modelled as an
emitted trace of operations; JavaScript `undefined`/`null` fields are
modelled by `Option`; a JavaScript `TypeError` (property access on
`undefined`) is modelled by an explicit `crashed` outcome that carries
the trace emitted before the crash.
-/

/-- A 3-component vector (the JS code uses Float32Array / number[3]). -/
structure Vec3 where
  x : ℚ
  y : ℚ
  z : ℚ
deriving DecidableEq, Repr

/-- Modelled from the spec: `math.compareVec3` (math.js is not under src/).
The spec says RTC centers are compared "by value not identity", i.e.
component-wise value comparison. -/
def compareVec3 (a b : Vec3) : Bool :=
  a.x == b.x && a.y == b.y && a.z == b.z

def dotVec3 (a b : Vec3) : ℚ :=
  a.x * b.x + a.y * b.y + a.z * b.z

def addVec3 (a b : Vec3) : Vec3 :=
  ⟨a.x + b.x, a.y + b.y, a.z + b.z⟩

def scaleVec3 (s : ℚ) (a : Vec3) : Vec3 :=
  ⟨s * a.x, s * a.y, s * a.z⟩

/-- 4x4 matrices are flat 16-element column-major arrays in the JS code
(`math.mat4()` returns a Float32Array of length 16). -/
abbrev Mat4 := List ℚ

/-- Modelled from the spec: `math.translationMat4v` (math.js is not under
src/): the column-major 4x4 translation matrix by vector `c`. -/
def translationMat4v (c : Vec3) : Mat4 :=
  [1, 0, 0, 0,
   0, 1, 0, 0,
   0, 0, 1, 0,
   c.x, c.y, c.z, 1]

/-- Modelled from the spec: `math.mulMat4` (math.js is not under src/):
column-major 4x4 matrix product. -/
def mulMat4 (a b : Mat4) : Mat4 :=
  (List.range 16).map fun k =>
    let col := k / 4
    let row := k % 4
    (List.range 4).foldl (fun acc i => acc + a.getD (i * 4 + row) 0 * b.getD (col * 4 + i) 0) 0

/-- Modelled from the spec: `createRTCViewMat` (math/rtcCoords.js is not
under src/). Per the spec it "produces a view matrix equivalent to
composing a translation by `rtcCenter` with the world view matrix". -/
def createRTCViewMat (viewMatrix : Mat4) (rtcCenter : Vec3) : Mat4 :=
  mulMat4 viewMatrix (translationMat4v rtcCenter)

/-- Modelled from the spec: `getPlaneRTCPos` (math/rtcCoords.js is not
under src/). Per the spec it "projects a world-space plane (defined by
signed distance + normal) into a position expressed relative to
`rtcCenter`", i.e. it returns a point p with p + rtcCenter on the plane
⟨q : dot dir q = dist⟩, taken along the plane normal. -/
def getPlaneRTCPos (dist : ℚ) (dir : Vec3) (rtcCenter : Vec3) : Vec3 :=
  scaleVec3 (dist - dotVec3 dir rtcCenter) dir

/-- A section (clipping) plane as the scene holds it: world position,
direction, and the signed distance used for the RTC transform.
The `id` is the identity that enters the configuration hash. -/
structure SectionPlane where
  id : Nat
  pos : Vec3
  dir : Vec3
  dist : ℚ
deriving DecidableEq, Repr

/-- The scene's ordered collection of section planes. -/
structure SectionPlanesState where
  sectionPlanes : List SectionPlane
deriving DecidableEq, Repr

/-- Modelled from the spec: `SectionPlanesState.getHash` (the
SectionPlanesState source is not under src/). Per the spec the hash is a
"structural signature (count + identity)" of the section planes, so we
take the list of plane identities (whose length is the count). -/
def getHash (s : SectionPlanesState) : List Nat :=
  s.sectionPlanes.map fun p => p.id

/-- Modelled from the spec: section planes are "mutated by user-facing
clip-plane APIs (external)"; adding appends a plane to the ordered
collection. -/
def addSectionPlane (s : SectionPlanesState) (p : SectionPlane) : SectionPlanesState :=
  ⟨s.sectionPlanes ++ [p]⟩

/-- Modelled from the spec: removing deletes the plane at a position of
the ordered collection. -/
def removeSectionPlane (s : SectionPlanesState) (i : Nat) : SectionPlanesState :=
  ⟨s.sectionPlanes.eraseIdx i⟩

/-- Uniform names the renderer looks up with `program.getLocation`. -/
inductive UniformName where
  | positionsDecodeMatrix
  | viewMatrix
  | projMatrix
  | sectionPlaneActive (i : Nat)
  | sectionPlanePos (i : Nat)
  | sectionPlaneDir (i : Nat)
deriving DecidableEq, Repr

/-- Attribute names the renderer looks up with `program.getAttribute`. -/
inductive AttributeName where
  | position
  | offset
  | color
  | flags
  | flags2
deriving DecidableEq, Repr

/-- Modelled from the spec: the GPU Resource Wrapper (webgl/Program.js is
not under src/): "thin ownership wrapper around a compiled shader program
and its attribute/uniform locations; exposes bind/get-location/destroy".
`errors` is non-none when shader compilation failed; `locations` and
`attributes` return `none` for names the specialized shader does not
declare. -/
structure Program where
  id : Nat
  errors : Option Nat
  locations : UniformName → Option Nat
  attributes : AttributeName → Option Nat

/-- The per-model flattened active flags, read-only to renderers. -/
structure RenderFlags where
  sectionPlanesActivePerLayer : List Bool
deriving DecidableEq, Repr

/-- The model that owns a batching layer: view matrix and render flags. -/
structure Model where
  viewMatrix : Mat4
  renderFlags : RenderFlags
deriving DecidableEq, Repr

/-- `batchingLayer._state`: GPU buffer handles, decode matrix, optional
RTC center, primitive type and index-buffer metadata (the JS
`indicesBuf` object is flattened into the three `indices*` fields). -/
structure LayerState where
  rtcCenter : Option Vec3
  positionsDecodeMatrix : Mat4
  positionsBuf : Nat
  offsetsBuf : Nat
  colorsBuf : Nat
  flagsBuf : Nat
  flags2Buf : Nat
  indicesBufId : Nat
  indicesNumItems : Nat
  indicesItemType : Nat
  primitive : Nat
deriving DecidableEq, Repr

/-- A batching layer handed to `drawLayer`. -/
structure BatchingLayer where
  model : Model
  state : LayerState
  layerIndex : Nat
deriving DecidableEq, Repr

/-- Per-frame scratch state shared by all draws of one frame. -/
structure FrameCtx where
  lastProgramId : Option Nat
  lastRTCCenter : Option Vec3
deriving DecidableEq, Repr

/-- The scene as the renderer sees it: section-plane state, the camera's
projection matrix (`camera._project._state.matrix`), and the program
that compiling this scene's shader source would produce (`new Program(gl,
this._shaderSource)` in `_allocate`). -/
structure Scene where
  sectionPlanesState : SectionPlanesState
  projMatrix : Mat4
  compileResult : Program

/-- Cached uniform locations for one section plane (`_uSectionPlanes[i]`). -/
structure SectionPlaneUniforms where
  active : Option Nat
  pos : Option Nat
  dir : Option Nat
deriving DecidableEq, Repr

/-- The `BatchingOcclusionRenderer` instance state. Fields that JS leaves
`undefined` until `_allocate` assigns them are `Option`-valued with
`none` for undefined/null. -/
structure Renderer where
  hash : List Nat
  program : Option Program
  errors : Option Nat
  uPositionsDecodeMatrix : Option Nat
  uViewMatrix : Option Nat
  uProjMatrix : Option Nat
  uSectionPlanes : Option (List SectionPlaneUniforms)
  aPosition : Option Nat
  aOffset : Option Nat
  aColor : Option Nat
  aFlags : Option Nat
  aFlags2 : Option Nat

/-- The GPU / WebGL calls `drawLayer` can issue, as trace events. -/
inductive GpuOp where
  | bindProgram (progId : Nat)
  | uniformMatrix4fv (loc : Option Nat) (m : Mat4)
  | uniform1i (loc : Option Nat) (v : Int)
  | uniform3fv (loc : Option Nat) (v : Vec3)
  | bindArrayBuffer (attrHandle : Nat) (buf : Nat)
  | bindIndicesBuffer (buf : Nat)
  | drawElements (primitive : Nat) (numItems : Nat) (itemType : Nat)
deriving DecidableEq, Repr

/-- How a `drawLayer` call ended: normally, by the early return after a
failed allocation, or by a JavaScript TypeError (access on undefined). -/
inductive DrawOutcome where
  | completed
  | earlyReturn
  | crashed
deriving DecidableEq, Repr

/-- Result of one `drawLayer` call: renderer state, frame context, the
GPU trace emitted (up to the crash point if any), and the outcome. -/
structure DrawResult where
  renderer : Renderer
  frameCtx : FrameCtx
  ops : List GpuOp
  outcome : DrawOutcome

/-- `BatchingOcclusionRenderer._allocate`: compiles the shader source
(whose result the scene supplies), records errors on failure (note the
JS keeps `this._program` pointing at the failed Program object and does
not clear a previously recorded `this.errors` on success), and on
success caches every uniform location and attribute handle. -/
def allocate (scene : Scene) (r : Renderer) : Renderer :=
  let program := scene.compileResult
  if program.errors.isSome then
    { r with program := some program, errors := program.errors }
  else
    let n := scene.sectionPlanesState.sectionPlanes.length
    { r with
      program := some program
      uPositionsDecodeMatrix := program.locations UniformName.positionsDecodeMatrix
      uViewMatrix := program.locations UniformName.viewMatrix
      uProjMatrix := program.locations UniformName.projMatrix
      uSectionPlanes := some ((List.range n).map fun i =>
        { active := program.locations (UniformName.sectionPlaneActive i)
          pos := program.locations (UniformName.sectionPlanePos i)
          dir := program.locations (UniformName.sectionPlaneDir i) })
      aPosition := program.attributes AttributeName.position
      aOffset := program.attributes AttributeName.offset
      aColor := program.attributes AttributeName.color
      aFlags := program.attributes AttributeName.flags
      aFlags2 := program.attributes AttributeName.flags2 }

/-- The constructor: caches the scene's section-plane hash, then
allocates (all location/attribute fields start undefined). -/
def mkRenderer (scene : Scene) : Renderer :=
  allocate scene
    { hash := getHash scene.sectionPlanesState
      program := none
      errors := none
      uPositionsDecodeMatrix := none
      uViewMatrix := none
      uProjMatrix := none
      uSectionPlanes := none
      aPosition := none
      aOffset := none
      aColor := none
      aFlags := none
      aFlags2 := none }

/-- `getValid()`: the cached hash still matches the scene's current
section-plane hash. -/
def getValid (r : Renderer) (scene : Scene) : Bool :=
  r.hash == getHash scene.sectionPlanesState

/-- `webglContextRestored()`: discard the program handle so the next
draw reallocates. -/
def webglContextRestored (r : Renderer) : Renderer :=
  { r with program := none }

/-- The uniform writes the loop body issues for one section plane:
the `active` flag always; position (RTC-transformed when the layer has
an RTC center) and direction only when the plane is active. -/
def spPlaneOps (u : SectionPlaneUniforms) (plane : SectionPlane) (active : Bool)
    (rtcCenter : Option Vec3) : List GpuOp :=
  GpuOp.uniform1i u.active (if active then 1 else 0) ::
    (if active then
      [GpuOp.uniform3fv u.pos
        (match rtcCenter with
         | some c => getPlaneRTCPos plane.dist plane.dir c
         | none => plane.pos),
       GpuOp.uniform3fv u.dir plane.dir]
     else [])

/-- The section-plane loop over the given plane indices. Returns the
emitted ops and whether a TypeError occurred (indexing `_uSectionPlanes`
or `sectionPlanes` out of range yields `undefined` in JS; the subsequent
property access crashes). The `active` write precedes the plane lookup,
as in the source. -/
def spLoop (uSP : List SectionPlaneUniforms) (planes : List SectionPlane)
    (flags : List Bool) (base : Nat) (rtcCenter : Option Vec3) :
    List Nat → List GpuOp × Bool
  | [] => ([], false)
  | i :: rest =>
    match uSP.get? i with
    | none => ([], true)
    | some u =>
      let active := flags.getD (base + i) false
      if active then
        match planes.get? i with
        | none => ([GpuOp.uniform1i u.active 1], true)
        | some plane =>
          let r := spLoop uSP planes flags base rtcCenter rest
          (spPlaneOps u plane true rtcCenter ++ r.1, r.2)
      else
        let r := spLoop uSP planes flags base rtcCenter rest
        (GpuOp.uniform1i u.active 0 :: r.1, r.2)

/-- Result of the section-plane block: emitted ops plus crash flag. -/
inductive SPResult where
  | ok (ops : List GpuOp)
  | crash (ops : List GpuOp)
deriving DecidableEq, Repr

/-- The `if (loadSectionPlanes)` block of `drawLayer`. -/
def sectionPlanesSection (r : Renderer) (planes : List SectionPlane)
    (layer : BatchingLayer) (load : Bool) : SPResult :=
  if load then
    if 0 < planes.length then
      match r.uSectionPlanes with
      | none => SPResult.crash []
      | some uSP =>
        let res := spLoop uSP planes layer.model.renderFlags.sectionPlanesActivePerLayer
          (layer.layerIndex * planes.length) layer.state.rtcCenter
          (List.range planes.length)
        if res.2 then SPResult.crash res.1 else SPResult.ok res.1
    else SPResult.ok []
  else SPResult.ok []

/-- The RTC-center tracking block of `drawLayer`: updates
`frameCtx.lastRTCCenter` and possibly raises the `loadSectionPlanes`
flag, mirroring the nested null/value comparisons of the source. -/
def rtcTrack (rtcCenter : Option Vec3) (fctx : FrameCtx) (load : Bool) :
    FrameCtx × Bool :=
  match rtcCenter with
  | some c =>
    match fctx.lastRTCCenter with
    | some lc =>
      if ¬ compareVec3 c lc then ({ fctx with lastRTCCenter := some c }, true)
      else (fctx, load)
    | none => ({ fctx with lastRTCCenter := some c }, true)
  | none =>
    match fctx.lastRTCCenter with
    | some _ => ({ fctx with lastRTCCenter := none }, true)
    | none => (fctx, load)

/-- `[bindArrayBuffer]` for a conditionally-present attribute: the JS
only calls `bindArrayBuffer` when the attribute handle is non-null. -/
def optBind (a : Option Nat) (buf : Nat) : List GpuOp :=
  match a with
  | some h => [GpuOp.bindArrayBuffer h buf]
  | none => []

/-- The attribute-binding block: position and flags are bound
unconditionally (a TypeError if the handle is undefined/null); offset,
color and flags2 only when the compiled shader declared them. -/
def attrSection (r : Renderer) (state : LayerState) : List GpuOp × Bool :=
  match r.aPosition with
  | none => ([], true)
  | some hp =>
    let ops3 := GpuOp.bindArrayBuffer hp state.positionsBuf ::
      (optBind r.aOffset state.offsetsBuf ++ optBind r.aColor state.colorsBuf)
    match r.aFlags with
    | none => (ops3, true)
    | some hf =>
      (ops3 ++ GpuOp.bindArrayBuffer hf state.flagsBuf :: optBind r.aFlags2 state.flags2Buf,
       false)

/-- The tail of `drawLayer` after the section-plane block: decode-matrix
uniform, attribute binds, index-buffer bind and the indexed draw call. -/
def finishDraw (r : Renderer) (fctx : FrameCtx) (opsSoFar : List GpuOp)
    (state : LayerState) : DrawResult :=
  let ops1 := opsSoFar ++ [GpuOp.uniformMatrix4fv r.uPositionsDecodeMatrix state.positionsDecodeMatrix]
  let a := attrSection r state
  if a.2 then ⟨r, fctx, ops1 ++ a.1, DrawOutcome.crashed⟩
  else
    ⟨r, fctx, ops1 ++ a.1 ++
      [GpuOp.bindIndicesBuffer state.indicesBufId,
       GpuOp.drawElements state.primitive state.indicesNumItems state.indicesItemType],
      DrawOutcome.completed⟩

/-- The view matrix `drawLayer` uploads: RTC-relative when the layer has
an RTC center, the camera's world view matrix otherwise. -/
def viewMatFor (layer : BatchingLayer) : Mat4 :=
  match layer.state.rtcCenter with
  | some c => createRTCViewMat layer.model.viewMatrix c
  | none => layer.model.viewMatrix

/-- The two matrix uniform writes issued on every draw. -/
def matSegment (r : Renderer) (scene : Scene) (layer : BatchingLayer) : List GpuOp :=
  [GpuOp.uniformMatrix4fv r.uViewMatrix (viewMatFor layer),
   GpuOp.uniformMatrix4fv r.uProjMatrix scene.projMatrix]

/-- The body of `drawLayer` once a program object exists: conditional
program bind, matrix uniforms, RTC tracking, conditional section-plane
reload, then the buffer binds and the draw call. -/
def drawLayerBody (scene : Scene) (r : Renderer) (fctx0 : FrameCtx)
    (layer : BatchingLayer) : DrawResult :=
  match r.program with
  | none => ⟨r, fctx0, [], DrawOutcome.crashed⟩
  | some prog =>
    let bound := fctx0.lastProgramId != some prog.id
    let fctx1 := if bound then { fctx0 with lastProgramId := some prog.id } else fctx0
    let bindOps := if bound then [GpuOp.bindProgram prog.id] else ([] : List GpuOp)
    let rtcRes := rtcTrack layer.state.rtcCenter fctx1 bound
    let fctx2 := rtcRes.1
    let load := rtcRes.2
    match sectionPlanesSection r scene.sectionPlanesState.sectionPlanes layer load with
    | SPResult.crash spOps =>
      ⟨r, fctx2, bindOps ++ matSegment r scene layer ++ spOps, DrawOutcome.crashed⟩
    | SPResult.ok spOps =>
      finishDraw r fctx2 (bindOps ++ matSegment r scene layer ++ spOps) layer.state

/-- `BatchingOcclusionRenderer.drawLayer`: when no program object exists
it allocates first and returns early when `this.errors` is set, then
runs the draw body. -/
def drawLayer (scene : Scene) (r0 : Renderer) (fctx0 : FrameCtx)
    (layer : BatchingLayer) : DrawResult :=
  match r0.program with
  | none =>
    let r1 := allocate scene r0
    if r1.errors.isSome then ⟨r1, fctx0, [], DrawOutcome.earlyReturn⟩
    else drawLayerBody scene r1 fctx0 layer
  | some _ => drawLayerBody scene r0 fctx0 layer

/-- The `Ortho` scale setter: `undefined`/`null` become the default 1.0
and any value ≤ 0 becomes 0.01. -/
def setScale (value : Option ℚ) : ℚ :=
  let v := match value with
    | none => 1
    | some v => v
  if v ≤ 0 then 1 / 100 else v

/-- The frustum extents `Ortho._update` computes: (left, right, bottom,
top) from the stored scale and the viewport boundary width/height. -/
def orthoFrustum (scale bw bh : ℚ) : ℚ × ℚ × ℚ × ℚ :=
  let halfSize := scale / 2
  let aspect := bw / bh
  if bh < bw then (-halfSize, halfSize, -halfSize / aspect, halfSize / aspect)
  else (-halfSize * aspect, halfSize * aspect, -halfSize, halfSize)

/-! ## Trace classifiers -/

/-- Is this op a program bind? -/
def isBindProgram : GpuOp → Bool
  | GpuOp.bindProgram _ => true
  | _ => false

/-- Number of program binds in a trace. -/
def bindCount (ops : List GpuOp) : Nat :=
  (ops.filter isBindProgram).length

/-- Is this op a section-plane uniform write?  `uniform1i` and
`uniform3fv` are issued only inside the section-plane reload loop of
this renderer, so they classify the reload exactly. -/
def isSectionPlaneWrite : GpuOp → Bool
  | GpuOp.uniform1i _ _ => true
  | GpuOp.uniform3fv _ _ => true
  | _ => false

/-- The section-plane uniform writes of a trace. -/
def sectionPlaneWrites (ops : List GpuOp) : List GpuOp :=
  ops.filter isSectionPlaneWrite

/-- The (attribute handle, buffer) pairs bound in a trace. -/
def attrBindPairs (ops : List GpuOp) : List (Nat × Nat) :=
  ops.filterMap fun op =>
    match op with
    | GpuOp.bindArrayBuffer h b => some (h, b)
    | _ => none

/-- The matrix uniform writes of a trace, as (location, matrix) pairs. -/
def matrixWrites (ops : List GpuOp) : List (Option Nat × Mat4) :=
  ops.filterMap fun op =>
    match op with
    | GpuOp.uniformMatrix4fv loc m => some (loc, m)
    | _ => none

/-- The claim's notion of the RTC center changing between draws:
component-wise value comparison, a transition between null and non-null
counting as a change. -/
def rtcCenterDiffers (current last : Option Vec3) : Bool :=
  match current, last with
  | some c, some lc => ! compareVec3 c lc
  | some _, none => true
  | none, some _ => true
  | none, none => false

/-- The section-plane uniform writes the spec describes for a reload:
for each plane index an `active` write taken from the flattened
`sectionPlanesActivePerLayer` array at `layerIndex * numSectionPlanes +
i`; position (RTC-transformed when the layer has an RTC center) and
direction only for active planes. -/
def claimedSectionPlaneWrites (uSP : List SectionPlaneUniforms)
    (planes : List SectionPlane) (flags : List Bool) (layerIndex : Nat)
    (rtcCenter : Option Vec3) : List GpuOp :=
  let n := planes.length
  (List.range n).flatMap fun i =>
    match uSP.get? i, planes.get? i with
    | some u, some plane => spPlaneOps u plane (flags.getD (layerIndex * n + i) false) rtcCenter
    | _, _ => []

/-! ## Basic lemmas -/

theorem compareVec3_iff (a b : Vec3) : compareVec3 a b = true ↔ a = b := by
  cases a
  cases b
  simp [compareVec3, Vec3.mk.injEq, Bool.and_eq_true, and_assoc]

theorem rtcTrack_fst_lastProgramId (c : Option Vec3) (fctx : FrameCtx) (load : Bool) :
    ((rtcTrack c fctx load).1).lastProgramId = fctx.lastProgramId := by
  unfold rtcTrack
  cases c <;> cases h : fctx.lastRTCCenter <;> simp
  split <;> simp

theorem rtcTrack_fst_lastRTCCenter (c : Option Vec3) (fctx : FrameCtx) (load : Bool) :
    ((rtcTrack c fctx load).1).lastRTCCenter = c := by
  unfold rtcTrack
  cases c with
  | none => cases h : fctx.lastRTCCenter <;> simp [h]
  | some cc =>
    cases h : fctx.lastRTCCenter with
    | none => simp
    | some lc =>
      by_cases hc : compareVec3 cc lc
      · have hcl : cc = lc := (compareVec3_iff cc lc).mp hc
        subst hcl
        simp [hc, h]
      · simp [hc]

theorem rtcTrack_snd (c : Option Vec3) (fctx : FrameCtx) (load : Bool) :
    (rtcTrack c fctx load).2 = (load || rtcCenterDiffers c fctx.lastRTCCenter) := by
  unfold rtcTrack rtcCenterDiffers
  cases c <;> cases h : fctx.lastRTCCenter <;> simp [h]
  split <;> simp_all

/-- The ops a section-plane block emitted, crash or not. -/
def SPResult.ops : SPResult → List GpuOp
  | SPResult.ok ops => ops
  | SPResult.crash ops => ops

theorem spPlaneOps_writes (u : SectionPlaneUniforms) (plane : SectionPlane)
    (active : Bool) (rtc : Option Vec3) :
    ∀ op ∈ spPlaneOps u plane active rtc, isSectionPlaneWrite op = true := by
  intro op hop
  cases active <;> simp [spPlaneOps] at hop
  · subst hop
    rfl
  · rcases hop with rfl | rfl | rfl <;> rfl

theorem spLoop_writes (uSP : List SectionPlaneUniforms) (planes : List SectionPlane)
    (flags : List Bool) (base : Nat) (rtc : Option Vec3) (idxs : List Nat) :
    ∀ op ∈ (spLoop uSP planes flags base rtc idxs).1, isSectionPlaneWrite op = true := by
  induction idxs with
  | nil =>
    intro op hop
    simp [spLoop] at hop
  | cons i rest ih =>
    intro op hop
    unfold spLoop at hop
    cases hu : uSP.get? i with
    | none =>
      rw [hu] at hop
      simp at hop
    | some u =>
      rw [hu] at hop
      simp only at hop
      by_cases ha : flags.getD (base + i) false = true
      · rw [if_pos ha] at hop
        cases hpl : planes.get? i with
        | none =>
          rw [hpl] at hop
          simp at hop
          subst hop
          rfl
        | some plane =>
          rw [hpl] at hop
          simp only [List.mem_append] at hop
          rcases hop with hop | hop
          · exact spPlaneOps_writes u plane true rtc op hop
          · exact ih op hop
      · rw [if_neg ha] at hop
        simp only [List.mem_cons] at hop
        rcases hop with rfl | hop
        · rfl
        · exact ih op hop

theorem spLoop_eq_flatMap (uSP : List SectionPlaneUniforms) (planes : List SectionPlane)
    (flags : List Bool) (base : Nat) (rtc : Option Vec3) (idxs : List Nat)
    (h : ∀ i ∈ idxs, i < uSP.length ∧ i < planes.length) :
    spLoop uSP planes flags base rtc idxs =
      (idxs.flatMap fun i =>
        match uSP.get? i, planes.get? i with
        | some u, some plane => spPlaneOps u plane (flags.getD (base + i) false) rtc
        | _, _ => [], false) := by
  induction idxs with
  | nil => simp [spLoop]
  | cons i rest ih =>
    have hi := h i (List.mem_cons_self i rest)
    have hrest : ∀ j ∈ rest, j < uSP.length ∧ j < planes.length :=
      fun j hj => h j (List.mem_cons_of_mem i hj)
    obtain ⟨hu, hpl⟩ := hi
    rw [List.flatMap_cons]
    cases hgu : uSP.get? i with
    | none =>
      rw [List.get?_eq_none] at hgu
      omega
    | some u =>
      cases hgp : planes.get? i with
      | none =>
        rw [List.get?_eq_none] at hgp
        omega
      | some plane =>
        unfold spLoop
        rw [hgu, hgp, ih hrest]
        simp only
        by_cases ha : flags.getD (base + i) false = true
        · rw [if_pos ha, ha]
        · rw [if_neg ha]
          have ha' : flags.getD (base + i) false = false := by
            revert ha
            cases flags.getD (base + i) false <;> simp
        
          rw [ha']
          simp [spPlaneOps]

theorem sectionPlanesSection_writes (r : Renderer) (planes : List SectionPlane)
    (layer : BatchingLayer) (load : Bool) :
    ∀ op ∈ (sectionPlanesSection r planes layer load).ops, isSectionPlaneWrite op = true := by
  intro op hop
  simp only [sectionPlanesSection] at hop
  repeat' split at hop
  all_goals simp only [SPResult.ops] at hop
  all_goals first
    | exact absurd hop (List.not_mem_nil op)
    | exact spLoop_writes _ _ _ _ _ _ op hop

theorem sectionPlanesSection_false (r : Renderer) (planes : List SectionPlane)
    (layer : BatchingLayer) :
    sectionPlanesSection r planes layer false = SPResult.ok [] := by
  simp [sectionPlanesSection]

theorem sectionPlanesSection_ok (r : Renderer) (planes : List SectionPlane)
    (layer : BatchingLayer) (uSP : List SectionPlaneUniforms)
    (hu : r.uSectionPlanes = some uSP) (hlen : planes.length ≤ uSP.length) :
    sectionPlanesSection r planes layer true =
      SPResult.ok (claimedSectionPlaneWrites uSP planes
        layer.model.renderFlags.sectionPlanesActivePerLayer layer.layerIndex
        layer.state.rtcCenter) := by
  simp only [sectionPlanesSection, if_pos rfl]
  by_cases hn : 0 < planes.length
  · rw [if_pos hn, hu]
    simp only
    rw [spLoop_eq_flatMap _ _ _ _ _ _ (by
      intro i hi
      simp only [List.mem_range] at hi
      omega)]
    simp [claimedSectionPlaneWrites]
  · rw [if_neg hn]
    have hz : planes.length = 0 := by omega
    simp [claimedSectionPlaneWrites, hz]

theorem optBind_mem (a : Option Nat) (buf : Nat) :
    ∀ op ∈ optBind a buf, ∃ hh b, op = GpuOp.bindArrayBuffer hh b := by
  intro op hop
  cases a <;> simp [optBind] at hop
  exact ⟨_, _, hop⟩

theorem attrSection_binds (r : Renderer) (s : LayerState) :
    ∀ op ∈ (attrSection r s).1, ∃ hh b, op = GpuOp.bindArrayBuffer hh b := by
  intro op hop
  unfold attrSection at hop
  cases hp : r.aPosition with
  | none =>
    rw [hp] at hop
    simp at hop
  | some hpos =>
    rw [hp] at hop
    cases hf : r.aFlags with
    | none =>
      rw [hf] at hop
      simp only [List.mem_cons, List.mem_append] at hop
      rcases hop with rfl | hop | hop
      · exact ⟨_, _, rfl⟩
      · exact optBind_mem _ _ op hop
      · exact optBind_mem _ _ op hop
    | some hfl =>
      rw [hf] at hop
      simp only [List.mem_append, List.mem_cons] at hop
      rcases hop with (rfl | hop | hop) | rfl | hop
      · exact ⟨_, _, rfl⟩
      · exact optBind_mem _ _ op hop
      · exact optBind_mem _ _ op hop
      · exact ⟨_, _, rfl⟩
      · exact optBind_mem _ _ op hop

theorem attrSection_shape (r : Renderer) (s : LayerState) (hpos hfl : Nat)
    (hp : r.aPosition = some hpos) (hf : r.aFlags = some hfl) :
    attrSection r s =
      ((GpuOp.bindArrayBuffer hpos s.positionsBuf ::
        (optBind r.aOffset s.offsetsBuf ++ optBind r.aColor s.colorsBuf)) ++
        GpuOp.bindArrayBuffer hfl s.flagsBuf :: optBind r.aFlags2 s.flags2Buf, false) := by
  unfold attrSection
  rw [hp, hf]

theorem finishDraw_renderer (r : Renderer) (fctx : FrameCtx) (ops : List GpuOp)
    (s : LayerState) : (finishDraw r fctx ops s).renderer = r := by
  simp only [finishDraw]
  split <;> rfl

theorem finishDraw_frameCtx (r : Renderer) (fctx : FrameCtx) (ops : List GpuOp)
    (s : LayerState) : (finishDraw r fctx ops s).frameCtx = fctx := by
  simp only [finishDraw]
  split <;> rfl

theorem finishDraw_ops (r : Renderer) (fctx : FrameCtx) (ops : List GpuOp)
    (s : LayerState) :
    ∃ tail, (finishDraw r fctx ops s).ops =
        ops ++ GpuOp.uniformMatrix4fv r.uPositionsDecodeMatrix s.positionsDecodeMatrix :: tail ∧
      ∀ op ∈ tail, (∃ hh b, op = GpuOp.bindArrayBuffer hh b) ∨
        (∃ b, op = GpuOp.bindIndicesBuffer b) ∨
        (∃ a b c, op = GpuOp.drawElements a b c) := by
  unfold finishDraw
  by_cases h2 : (attrSection r s).2 = true
  · rw [if_pos h2]
    refine ⟨(attrSection r s).1, ?_, ?_⟩
    · simp
    · intro op hop
      exact Or.inl (attrSection_binds r s op hop)
  · rw [if_neg h2]
    refine ⟨(attrSection r s).1 ++
      [GpuOp.bindIndicesBuffer s.indicesBufId,
       GpuOp.drawElements s.primitive s.indicesNumItems s.indicesItemType], ?_, ?_⟩
    · simp
    · intro op hop
      simp only [List.mem_append, List.mem_cons] at hop
      rcases hop with hop | rfl | rfl | hop
      · exact Or.inl (attrSection_binds r s op hop)
      · exact Or.inr (Or.inl ⟨_, rfl⟩)
      · exact Or.inr (Or.inr ⟨_, _, _, rfl⟩)
      · exact absurd hop (List.not_mem_nil op)

/-! ## Classifier helper lemmas -/

theorem spWrite_not_bind {op : GpuOp} (h : isSectionPlaneWrite op = true) :
    isBindProgram op = false := by
  cases op <;> simp_all [isSectionPlaneWrite, isBindProgram]

theorem bindCount_eq_zero {ops : List GpuOp}
    (h : ∀ op ∈ ops, isBindProgram op = false) : bindCount ops = 0 := by
  unfold bindCount
  rw [List.filter_eq_nil_iff.mpr (by intro a ha; simp [h a ha])]
  rfl

theorem bindCount_append (xs ys : List GpuOp) :
    bindCount (xs ++ ys) = bindCount xs + bindCount ys := by
  unfold bindCount
  rw [List.filter_append, List.length_append]

theorem sectionPlaneWrites_append (xs ys : List GpuOp) :
    sectionPlaneWrites (xs ++ ys) = sectionPlaneWrites xs ++ sectionPlaneWrites ys := by
  unfold sectionPlaneWrites
  rw [List.filter_append]

theorem sectionPlaneWrites_eq_nil {ops : List GpuOp}
    (h : ∀ op ∈ ops, isSectionPlaneWrite op = false) : sectionPlaneWrites ops = [] := by
  unfold sectionPlaneWrites
  rw [List.filter_eq_nil_iff.mpr (by intro a ha; simp [h a ha])]

theorem sectionPlaneWrites_eq_self {ops : List GpuOp}
    (h : ∀ op ∈ ops, isSectionPlaneWrite op = true) : sectionPlaneWrites ops = ops := by
  unfold sectionPlaneWrites
  exact List.filter_eq_self.mpr h

theorem filterMap_none {α β : Type} (f : α → Option β) :
    ∀ l : List α, (∀ a ∈ l, f a = none) → l.filterMap f = []
  | [], _ => rfl
  | a :: l, h => by
    rw [List.filterMap_cons_none (h a (List.mem_cons_self a l))]
    exact filterMap_none f l fun b hb => h b (List.mem_cons_of_mem a hb)

/-! ## drawLayerBody structure lemmas -/

theorem drawLayerBody_renderer (scene : Scene) (r : Renderer) (fctx : FrameCtx)
    (layer : BatchingLayer) (p : Program) (hp : r.program = some p) :
    (drawLayerBody scene r fctx layer).renderer = r := by
  simp only [drawLayerBody, hp]
  split
  · rfl
  · exact finishDraw_renderer _ _ _ _

theorem drawLayerBody_lastRTCCenter (scene : Scene) (r : Renderer) (fctx : FrameCtx)
    (layer : BatchingLayer) (p : Program) (hp : r.program = some p) :
    (drawLayerBody scene r fctx layer).frameCtx.lastRTCCenter = layer.state.rtcCenter := by
  simp only [drawLayerBody, hp]
  split
  · simp [rtcTrack_fst_lastRTCCenter]
  · rw [finishDraw_frameCtx]
    simp [rtcTrack_fst_lastRTCCenter]

theorem drawLayerBody_lastProgramId (scene : Scene) (r : Renderer) (fctx : FrameCtx)
    (layer : BatchingLayer) (p : Program) (hp : r.program = some p) :
    (drawLayerBody scene r fctx layer).frameCtx.lastProgramId = some p.id := by
  by_cases hb : fctx.lastProgramId = some p.id
  · have h1 : (fctx.lastProgramId != some p.id) = false := by simp [hb]
    simp only [drawLayerBody, hp, h1, Bool.false_eq_true, if_false]
    split
    · simp [rtcTrack_fst_lastProgramId, hb]
    · rw [finishDraw_frameCtx]
      simp [rtcTrack_fst_lastProgramId, hb]
  · have h1 : (fctx.lastProgramId != some p.id) = true := by simp [hb]
    simp only [drawLayerBody, hp, h1, if_true]
    split
    · simp [rtcTrack_fst_lastProgramId]
    · rw [finishDraw_frameCtx]
      simp [rtcTrack_fst_lastProgramId]

theorem drawLayerBody_ops (scene : Scene) (r : Renderer) (fctx : FrameCtx)
    (layer : BatchingLayer) (p : Program) (hp : r.program = some p) :
    ∃ tail,
      (drawLayerBody scene r fctx layer).ops =
        (if fctx.lastProgramId = some p.id then [] else [GpuOp.bindProgram p.id]) ++
        matSegment r scene layer ++
        (sectionPlanesSection r scene.sectionPlanesState.sectionPlanes layer
          ((fctx.lastProgramId != some p.id) ||
            rtcCenterDiffers layer.state.rtcCenter fctx.lastRTCCenter)).ops ++ tail ∧
      (∀ op ∈ tail, isSectionPlaneWrite op = false ∧ isBindProgram op = false) ∧
      (tail = [] ∨ ∃ tail2,
        tail = GpuOp.uniformMatrix4fv r.uPositionsDecodeMatrix
          layer.state.positionsDecodeMatrix :: tail2 ∧
        ∀ op ∈ tail2, (∃ hh b, op = GpuOp.bindArrayBuffer hh b) ∨
          (∃ b, op = GpuOp.bindIndicesBuffer b) ∨
          (∃ a b c, op = GpuOp.drawElements a b c)) := by
  by_cases hb : fctx.lastProgramId = some p.id
  · have h1 : (fctx.lastProgramId != some p.id) = false := by simp [hb]
    simp only [drawLayerBody, hp, h1, Bool.false_eq_true, if_false, if_pos hb,
      Bool.false_or, rtcTrack_snd]
    split
    · next spOps hsp =>
      refine ⟨[], ?_, ?_, Or.inl rfl⟩
      · rw [hsp]
        simp [SPResult.ops]
      · intro op hop
        exact absurd hop (List.not_mem_nil op)
    · next spOps hsp =>
      obtain ⟨tail2, htl, hmem⟩ := finishDraw_ops r _ _ layer.state
      refine ⟨GpuOp.uniformMatrix4fv r.uPositionsDecodeMatrix
        layer.state.positionsDecodeMatrix :: tail2, ?_, ?_, Or.inr ⟨tail2, rfl, hmem⟩⟩
      · rw [htl, hsp]
        simp [SPResult.ops]
      · intro op hop
        rcases List.mem_cons.mp hop with rfl | hop
        · exact ⟨rfl, rfl⟩
        · rcases hmem op hop with ⟨hh, b, rfl⟩ | ⟨b, rfl⟩ | ⟨a, b, c, rfl⟩ <;>
            exact ⟨rfl, rfl⟩
  · have h1 : (fctx.lastProgramId != some p.id) = true := by simp [hb]
    simp only [drawLayerBody, hp, h1, if_true, if_neg hb, Bool.true_or, rtcTrack_snd]
    split
    · next spOps hsp =>
      refine ⟨[], ?_, ?_, Or.inl rfl⟩
      · rw [hsp]
        simp [SPResult.ops]
      · intro op hop
        exact absurd hop (List.not_mem_nil op)
    · next spOps hsp =>
      obtain ⟨tail2, htl, hmem⟩ := finishDraw_ops r _ _ layer.state
      refine ⟨GpuOp.uniformMatrix4fv r.uPositionsDecodeMatrix
        layer.state.positionsDecodeMatrix :: tail2, ?_, ?_, Or.inr ⟨tail2, rfl, hmem⟩⟩
      · rw [htl, hsp]
        simp [SPResult.ops]
      · intro op hop
        rcases List.mem_cons.mp hop with rfl | hop
        · exact ⟨rfl, rfl⟩
        · rcases hmem op hop with ⟨hh, b, rfl⟩ | ⟨b, rfl⟩ | ⟨a, b, c, rfl⟩ <;>
            exact ⟨rfl, rfl⟩

theorem drawLayerBody_bindCount (scene : Scene) (r : Renderer) (fctx : FrameCtx)
    (layer : BatchingLayer) (p : Program) (hp : r.program = some p) :
    bindCount (drawLayerBody scene r fctx layer).ops =
      if fctx.lastProgramId = some p.id then 0 else 1 := by
  obtain ⟨tail, hops, hmem, -⟩ := drawLayerBody_ops scene r fctx layer p hp
  rw [hops, bindCount_append, bindCount_append, bindCount_append]
  have h1 : bindCount (matSegment r scene layer) = 0 := rfl
  have h2 : bindCount (sectionPlanesSection r scene.sectionPlanesState.sectionPlanes layer
      ((fctx.lastProgramId != some p.id) ||
        rtcCenterDiffers layer.state.rtcCenter fctx.lastRTCCenter)).ops = 0 :=
    bindCount_eq_zero fun op hop =>
      spWrite_not_bind (sectionPlanesSection_writes _ _ _ _ op hop)
  have h3 : bindCount tail = 0 := bindCount_eq_zero fun op hop => (hmem op hop).2
  rw [h1, h2, h3]
  by_cases hb : fctx.lastProgramId = some p.id
  · rw [if_pos hb, if_pos hb]
    rfl
  · rw [if_neg hb, if_neg hb]
    rfl

theorem drawLayerBody_sectionPlaneWrites (scene : Scene) (r : Renderer) (fctx : FrameCtx)
    (layer : BatchingLayer) (p : Program) (hp : r.program = some p) :
    sectionPlaneWrites (drawLayerBody scene r fctx layer).ops =
      (sectionPlanesSection r scene.sectionPlanesState.sectionPlanes layer
        ((fctx.lastProgramId != some p.id) ||
          rtcCenterDiffers layer.state.rtcCenter fctx.lastRTCCenter)).ops := by
  obtain ⟨tail, hops, hmem, -⟩ := drawLayerBody_ops scene r fctx layer p hp
  rw [hops, sectionPlaneWrites_append, sectionPlaneWrites_append, sectionPlaneWrites_append]
  rw [sectionPlaneWrites_eq_self (sectionPlanesSection_writes _ _ _ _)]
  rw [sectionPlaneWrites_eq_nil fun op hop => (hmem op hop).1]
  have hbind : sectionPlaneWrites
      (if fctx.lastProgramId = some p.id then [] else [GpuOp.bindProgram p.id]) = [] := by
    split <;> rfl
  have hms : sectionPlaneWrites (matSegment r scene layer) = [] := rfl
  rw [hbind, hms]
  simp

theorem drawLayerBody_matrixWrites (scene : Scene) (r : Renderer) (fctx : FrameCtx)
    (layer : BatchingLayer) (p : Program) (hp : r.program = some p) :
    ∃ rest, matrixWrites (drawLayerBody scene r fctx layer).ops =
      (r.uViewMatrix, viewMatFor layer) :: (r.uProjMatrix, scene.projMatrix) :: rest := by
  obtain ⟨tail, hops, hmem, -⟩ := drawLayerBody_ops scene r fctx layer p hp
  refine ⟨matrixWrites tail, ?_⟩
  rw [hops]
  unfold matrixWrites
  rw [List.filterMap_append, List.filterMap_append, List.filterMap_append]
  have hbind : (if fctx.lastProgramId = some p.id then []
      else [GpuOp.bindProgram p.id]).filterMap (fun op =>
        match op with
        | GpuOp.uniformMatrix4fv loc m => some (loc, m)
        | _ => none) = [] := by
    split <;> rfl
  have hsp : (sectionPlanesSection r scene.sectionPlanesState.sectionPlanes layer
      ((fctx.lastProgramId != some p.id) ||
        rtcCenterDiffers layer.state.rtcCenter fctx.lastRTCCenter)).ops.filterMap (fun op =>
        match op with
        | GpuOp.uniformMatrix4fv loc m => some (loc, m)
        | _ => none) = [] := by
    apply filterMap_none
    intro op hop
    have hw := sectionPlanesSection_writes _ _ _ _ op hop
    cases op <;> simp_all [isSectionPlaneWrite]
  rw [hbind, hsp]
  rfl

theorem drawLayer_eq_body (scene : Scene) (r : Renderer) (fctx : FrameCtx)
    (layer : BatchingLayer) (p : Program) (hp : r.program = some p) :
    drawLayer scene r fctx layer = drawLayerBody scene r fctx layer := by
  simp only [drawLayer, hp]

theorem sectionPlanesSection_no_crash (r : Renderer) (planes : List SectionPlane)
    (layer : BatchingLayer) (load : Bool) (uSP : List SectionPlaneUniforms)
    (hu : r.uSectionPlanes = some uSP) (hlen : planes.length ≤ uSP.length) :
    ∃ spOps, sectionPlanesSection r planes layer load = SPResult.ok spOps := by
  cases load with
  | false => exact ⟨[], sectionPlanesSection_false r planes layer⟩
  | true => exact ⟨_, sectionPlanesSection_ok r planes layer uSP hu hlen⟩

/-- The (handle, buffer) pair for a conditionally-present attribute. -/
def optPair (a : Option Nat) (buf : Nat) : List (Nat × Nat) :=
  match a with
  | some h => [(h, buf)]
  | none => []

theorem attrBindPairs_optBind (a : Option Nat) (buf : Nat) :
    attrBindPairs (optBind a buf) = optPair a buf := by
  cases a <;> rfl

theorem attrBindPairs_append (xs ys : List GpuOp) :
    attrBindPairs (xs ++ ys) = attrBindPairs xs ++ attrBindPairs ys := by
  unfold attrBindPairs
  rw [List.filterMap_append]

theorem SPResult_ok_writes {r : Renderer} {planes : List SectionPlane}
    {layer : BatchingLayer} {load : Bool} {spOps : List GpuOp}
    (h : sectionPlanesSection r planes layer load = SPResult.ok spOps) :
    ∀ op ∈ spOps, isSectionPlaneWrite op = true := by
  have hall := sectionPlanesSection_writes r planes layer load
  rw [h] at hall
  exact hall

theorem attrBindPairs_nil : attrBindPairs [] = [] := rfl

theorem attrBindPairs_cons_bindProgram (i : Nat) (xs : List GpuOp) :
    attrBindPairs (GpuOp.bindProgram i :: xs) = attrBindPairs xs := by
  simp [attrBindPairs, List.filterMap_cons]

theorem attrBindPairs_cons_uniformMatrix4fv (l : Option Nat) (m : Mat4) (xs : List GpuOp) :
    attrBindPairs (GpuOp.uniformMatrix4fv l m :: xs) = attrBindPairs xs := by
  simp [attrBindPairs, List.filterMap_cons]

theorem attrBindPairs_cons_bindArrayBuffer (h b : Nat) (xs : List GpuOp) :
    attrBindPairs (GpuOp.bindArrayBuffer h b :: xs) = (h, b) :: attrBindPairs xs := by
  simp [attrBindPairs, List.filterMap_cons]

theorem attrBindPairs_cons_bindIndicesBuffer (b : Nat) (xs : List GpuOp) :
    attrBindPairs (GpuOp.bindIndicesBuffer b :: xs) = attrBindPairs xs := by
  simp [attrBindPairs, List.filterMap_cons]

theorem attrBindPairs_cons_drawElements (a b c : Nat) (xs : List GpuOp) :
    attrBindPairs (GpuOp.drawElements a b c :: xs) = attrBindPairs xs := by
  simp [attrBindPairs, List.filterMap_cons]

theorem finishDraw_attr (r : Renderer) (fctx : FrameCtx) (ops : List GpuOp)
    (s : LayerState) (ap af : Nat) (hpos : r.aPosition = some ap)
    (hfl : r.aFlags = some af) (hops : attrBindPairs ops = []) :
    (finishDraw r fctx ops s).outcome = DrawOutcome.completed ∧
    attrBindPairs (finishDraw r fctx ops s).ops =
      ((ap, s.positionsBuf) ::
        (optPair r.aOffset s.offsetsBuf ++ optPair r.aColor s.colorsBuf)) ++
      (af, s.flagsBuf) :: optPair r.aFlags2 s.flags2Buf := by
  simp only [finishDraw, attrSection_shape r s ap af hpos hfl]
  norm_num
  rw [attrBindPairs_append, hops, attrBindPairs_cons_uniformMatrix4fv, attrBindPairs_cons_bindArrayBuffer,
    attrBindPairs_append, attrBindPairs_append, attrBindPairs_optBind,
    attrBindPairs_optBind, attrBindPairs_cons_bindArrayBuffer,
    attrBindPairs_append, attrBindPairs_optBind,
    attrBindPairs_cons_bindIndicesBuffer, attrBindPairs_cons_drawElements,
    attrBindPairs_nil]
  simp

theorem drawLayerBody_completed (scene : Scene) (r : Renderer) (fctx : FrameCtx)
    (layer : BatchingLayer) (p : Program) (ap af : Nat)
    (uSP : List SectionPlaneUniforms) (hp : r.program = some p)
    (hu : r.uSectionPlanes = some uSP)
    (hlen : scene.sectionPlanesState.sectionPlanes.length ≤ uSP.length)
    (hpos : r.aPosition = some ap) (hfl : r.aFlags = some af) :
    (drawLayerBody scene r fctx layer).outcome = DrawOutcome.completed ∧
    attrBindPairs (drawLayerBody scene r fctx layer).ops =
      ((ap, layer.state.positionsBuf) ::
        (optPair r.aOffset layer.state.offsetsBuf ++
         optPair r.aColor layer.state.colorsBuf)) ++
      (af, layer.state.flagsBuf) :: optPair r.aFlags2 layer.state.flags2Buf := by
  simp only [drawLayerBody, hp]
  split
  · next spOps hsp =>
    obtain ⟨spOps2, hok⟩ := sectionPlanesSection_no_crash r
      scene.sectionPlanesState.sectionPlanes layer _ uSP hu hlen
    rw [hsp] at hok
    exact absurd hok (by simp)
  · next spOps hsp =>
    have hspw := SPResult_ok_writes hsp
    have hpre : attrBindPairs
        ((if (fctx.lastProgramId != some p.id) = true
            then [GpuOp.bindProgram p.id] else []) ++
          matSegment r scene layer ++ spOps) = [] := by
      rw [attrBindPairs_append, attrBindPairs_append]
      have h1 : attrBindPairs (if (fctx.lastProgramId != some p.id) = true
          then [GpuOp.bindProgram p.id] else []) = [] := by
        split <;> rfl
      have h3 : attrBindPairs spOps = [] := by
        apply filterMap_none
        intro op hop
        have hw := hspw op hop
        cases op <;> simp_all [isSectionPlaneWrite]
      rw [h1, h3]
      rfl
    exact finishDraw_attr r _ _ layer.state ap af hpos hfl hpre

/-! ## Concrete instances used by the witnesses -/

/-- A successfully compiled program: position/color/flags declared,
offset/flags2 absent from the specialized shader. -/
def okProgram : Program :=
  { id := 7
    errors := none
    locations := fun u =>
      match u with
      | UniformName.positionsDecodeMatrix => some 0
      | UniformName.viewMatrix => some 1
      | UniformName.projMatrix => some 2
      | UniformName.sectionPlaneActive i => some (10 + i)
      | UniformName.sectionPlanePos i => some (20 + i)
      | UniformName.sectionPlaneDir i => some (30 + i)
    attributes := fun a =>
      match a with
      | AttributeName.position => some 40
      | AttributeName.offset => none
      | AttributeName.color => some 41
      | AttributeName.flags => some 42
      | AttributeName.flags2 => none }

def plane0 : SectionPlane := { id := 100, pos := ⟨1, 0, 0⟩, dir := ⟨0, 1, 0⟩, dist := 5 }

def plane1 : SectionPlane := { id := 101, pos := ⟨0, 2, 0⟩, dir := ⟨1, 0, 0⟩, dist := 3 }

def scene2 : Scene :=
  { sectionPlanesState := ⟨[plane0, plane1]⟩
    projMatrix := [9]
    compileResult := okProgram }

def layerA : BatchingLayer :=
  { model := { viewMatrix := [5], renderFlags := ⟨[true, false, true, true]⟩ }
    state := { rtcCenter := none, positionsDecodeMatrix := [3]
               positionsBuf := 50, offsetsBuf := 51, colorsBuf := 52, flagsBuf := 53
               flags2Buf := 54, indicesBufId := 55, indicesNumItems := 9
               indicesItemType := 5125, primitive := 4 }
    layerIndex := 0 }

def rOK : Renderer := mkRenderer scene2

def fctx0 : FrameCtx := { lastProgramId := none, lastRTCCenter := none }

def uSP2 : List SectionPlaneUniforms :=
  [{ active := some 10, pos := some 20, dir := some 30 },
   { active := some 11, pos := some 21, dir := some 31 }]

/-- A program whose shader compilation failed. -/
def badProgram : Program := { okProgram with errors := some 1 }

def badScene : Scene :=
  { sectionPlanesState := ⟨[]⟩, projMatrix := [9], compileResult := badProgram }

/-- The renderer after construction against `badScene` and a GPU context
loss: the program handle is discarded, so the next draw reallocates. -/
def rBad : Renderer := webglContextRestored (mkRenderer badScene)

/-! ## Claim theorems -/

/-- C5: for every world-space plane (signed distance `dist`, unit normal
`dir`) and every RTC center `c`, `getPlaneRTCPos` returns a position
whose translation back by `c` lies on the plane: `dot dir (out + c)`
equals `dist` exactly over the rationals, hence within the 1e-5
tolerance the spec allows. -/
theorem getPlaneRTCPos_plane_invariant (dist : ℚ) (dir c : Vec3)
    (hunit : dotVec3 dir dir = 1) :
    |dotVec3 dir (addVec3 (getPlaneRTCPos dist dir c) c) - dist| ≤ 1 / 100000 := by
  have key : dotVec3 dir (addVec3 (getPlaneRTCPos dist dir c) c) = dist := by
    simp only [dotVec3] at hunit
    simp only [getPlaneRTCPos, addVec3, scaleVec3, dotVec3]
    linear_combination (dist - (dir.x * c.x + dir.y * c.y + dir.z * c.z)) * hunit
  rw [key]
  simp

/-- Witness for C5 at a concrete unit normal and center. -/
theorem getPlaneRTCPos_plane_invariant_witness :
    dotVec3 ⟨3 / 5, 4 / 5, 0⟩ ⟨3 / 5, 4 / 5, 0⟩ = 1 ∧
    |dotVec3 ⟨3 / 5, 4 / 5, 0⟩
        (addVec3 (getPlaneRTCPos 7 ⟨3 / 5, 4 / 5, 0⟩ ⟨1, 2, 3⟩) ⟨1, 2, 3⟩) - 7| ≤
      1 / 100000 :=
  ⟨by norm_num [dotVec3],
   getPlaneRTCPos_plane_invariant 7 ⟨3 / 5, 4 / 5, 0⟩ ⟨1, 2, 3⟩ (by norm_num [dotVec3])⟩

/-- C10: the Ortho scale setter maps undefined/null to the default 1.0
and any value ≤ 0 to 0.01; the stored scale is always strictly positive,
and the frustum `_update` computes from it is never degenerate (left <
right and bottom < top) for any positive viewport boundary. -/
theorem ortho_scale_clamp_positive (v bw bh : ℚ) (hbw : 0 < bw) (hbh : 0 < bh) :
    setScale none = 1 ∧
    (v ≤ 0 → setScale (some v) = 1 / 100) ∧
    0 < setScale (some v) ∧
    (orthoFrustum (setScale (some v)) bw bh).1 <
      (orthoFrustum (setScale (some v)) bw bh).2.1 ∧
    (orthoFrustum (setScale (some v)) bw bh).2.2.1 <
      (orthoFrustum (setScale (some v)) bw bh).2.2.2 := by
  have hdef : setScale none = 1 := by norm_num [setScale]
  have hs : setScale (some v) = if v ≤ 0 then 1 / 100 else v := rfl
  have hpos : 0 < setScale (some v) := by
    rw [hs]
    split
    · norm_num
    · next h => exact not_le.mp h
  have ha : 0 < bw / bh := div_pos hbw hbh
  have hh : 0 < setScale (some v) / 2 := by linarith
  have hx : 0 < setScale (some v) / 2 / (bw / bh) := div_pos hh ha
  refine ⟨hdef, fun hv => by simp [setScale, hv], hpos, ?_, ?_⟩ <;>
    unfold orthoFrustum <;> split <;> dsimp only
  · linarith
  · nlinarith [mul_pos hh ha]
  · rw [neg_div]
    linarith
  · linarith

/-- Witness for C10 at a concrete negative scale and viewport. -/
theorem ortho_scale_clamp_positive_witness :
    (0 : ℚ) < 4 ∧ (0 : ℚ) < 3 ∧
    (setScale none = 1 ∧
      ((-5 : ℚ) ≤ 0 → setScale (some (-5)) = 1 / 100) ∧
      0 < setScale (some (-5)) ∧
      (orthoFrustum (setScale (some (-5))) 4 3).1 <
        (orthoFrustum (setScale (some (-5))) 4 3).2.1 ∧
      (orthoFrustum (setScale (some (-5))) 4 3).2.2.1 <
        (orthoFrustum (setScale (some (-5))) 4 3).2.2.2) :=
  ⟨by norm_num, by norm_num,
   ortho_scale_clamp_positive (-5) 4 3 (by norm_num) (by norm_num)⟩

/-- C2: `drawLayer` binds the program exactly when
`frameCtx.lastProgramId` differs from the renderer's program id at the
start of the call, and across two consecutive draws whose renderers
share a compiled program id, the bind happens at most once in total
(never once before each). -/
theorem program_bind_elision (scene : Scene) (r r2 : Renderer) (fctx : FrameCtx)
    (layerA layerB : BatchingLayer) (p p2 : Program)
    (hp : r.program = some p) (hp2 : r2.program = some p2) (hid : p2.id = p.id) :
    bindCount (drawLayer scene r fctx layerA).ops =
      (if fctx.lastProgramId = some p.id then 0 else 1) ∧
    bindCount (drawLayer scene r2 (drawLayer scene r fctx layerA).frameCtx layerB).ops = 0 ∧
    bindCount (drawLayer scene r fctx layerA).ops +
      bindCount (drawLayer scene r2 (drawLayer scene r fctx layerA).frameCtx layerB).ops ≤ 1 := by
  rw [drawLayer_eq_body scene r fctx layerA p hp,
    drawLayer_eq_body scene r2 _ layerB p2 hp2]
  have h1 := drawLayerBody_bindCount scene r fctx layerA p hp
  have hctx := drawLayerBody_lastProgramId scene r fctx layerA p hp
  have h2 := drawLayerBody_bindCount scene r2
    (drawLayerBody scene r fctx layerA).frameCtx layerB p2 hp2
  rw [hctx, hid] at h2
  rw [if_pos rfl] at h2
  refine ⟨h1, h2, ?_⟩
  rw [h1, h2]
  split <;> omega

/-- Witness for C2: two consecutive draws of the same layer with the
same renderer bind the program exactly once in total. -/
theorem program_bind_elision_witness :
    rOK.program = some okProgram ∧
    (bindCount (drawLayer scene2 rOK fctx0 layerA).ops =
      (if fctx0.lastProgramId = some okProgram.id then 0 else 1) ∧
    bindCount (drawLayer scene2 rOK (drawLayer scene2 rOK fctx0 layerA).frameCtx layerA).ops = 0 ∧
    bindCount (drawLayer scene2 rOK fctx0 layerA).ops +
      bindCount (drawLayer scene2 rOK (drawLayer scene2 rOK fctx0 layerA).frameCtx layerA).ops ≤ 1) :=
  ⟨rfl, program_bind_elision scene2 rOK rOK fctx0 layerA layerA okProgram okProgram rfl rfl rfl⟩

/-- C9: after a `drawLayer` call that issues the draw,
`frameCtx.lastProgramId` equals the renderer's program id and
`frameCtx.lastRTCCenter` equals the drawn layer's RTC center (null when
the layer has none); centers are exact rationals here, so value equality
coincides with component-wise comparison. -/
theorem frame_context_postcondition (scene : Scene) (r : Renderer) (fctx : FrameCtx)
    (layer : BatchingLayer) (p : Program) (hp : r.program = some p)
    (hdraw : (drawLayer scene r fctx layer).outcome = DrawOutcome.completed) :
    (drawLayer scene r fctx layer).frameCtx.lastProgramId = some p.id ∧
    (drawLayer scene r fctx layer).frameCtx.lastRTCCenter = layer.state.rtcCenter := by
  rw [drawLayer_eq_body scene r fctx layer p hp]
  exact ⟨drawLayerBody_lastProgramId scene r fctx layer p hp,
    drawLayerBody_lastRTCCenter scene r fctx layer p hp⟩

/-- Witness for C9 at a concrete completed draw. -/
theorem frame_context_postcondition_witness :
    rOK.program = some okProgram ∧
    (drawLayer scene2 rOK fctx0 layerA).outcome = DrawOutcome.completed ∧
    ((drawLayer scene2 rOK fctx0 layerA).frameCtx.lastProgramId = some okProgram.id ∧
     (drawLayer scene2 rOK fctx0 layerA).frameCtx.lastRTCCenter = layerA.state.rtcCenter) :=
  ⟨rfl, by decide,
   frame_context_postcondition scene2 rOK fctx0 layerA okProgram rfl (by decide)⟩

/-- C6: every draw writes the view-matrix uniform first and the
projection-matrix uniform second: the view matrix is
`createRTCViewMat(model.viewMatrix, rtcCenter)` when the layer has an
RTC center and the unmodified `model.viewMatrix` otherwise, while the
projection matrix is always the camera's unmodified projection. -/
theorem view_proj_matrix_uniforms (scene : Scene) (r : Renderer) (fctx : FrameCtx)
    (layer : BatchingLayer) (p : Program) (hp : r.program = some p) :
    ∃ rest, matrixWrites (drawLayer scene r fctx layer).ops =
      (r.uViewMatrix,
        match layer.state.rtcCenter with
        | some c => createRTCViewMat layer.model.viewMatrix c
        | none => layer.model.viewMatrix) ::
      (r.uProjMatrix, scene.projMatrix) :: rest := by
  rw [drawLayer_eq_body scene r fctx layer p hp]
  have h := drawLayerBody_matrixWrites scene r fctx layer p hp
  simpa [viewMatFor] using h

/-- Witness for C6 at a concrete draw. -/
theorem view_proj_matrix_uniforms_witness :
    rOK.program = some okProgram ∧
    ∃ rest, matrixWrites (drawLayer scene2 rOK fctx0 layerA).ops =
      (rOK.uViewMatrix,
        match layerA.state.rtcCenter with
        | some c => createRTCViewMat layerA.model.viewMatrix c
        | none => layerA.model.viewMatrix) ::
      (rOK.uProjMatrix, scene2.projMatrix) :: rest :=
  ⟨rfl, view_proj_matrix_uniforms scene2 rOK fctx0 layerA okProgram rfl⟩

/-- Shared characterization: the section-plane uniform writes of a
`drawLayer` call are the full reload list when the program was not yet
bound or the RTC center changed, and empty otherwise. -/
theorem sectionPlaneWrites_load_characterization (scene : Scene) (r : Renderer)
    (fctx : FrameCtx) (layer : BatchingLayer) (p : Program)
    (uSP : List SectionPlaneUniforms)
    (hp : r.program = some p) (hu : r.uSectionPlanes = some uSP)
    (hlen : scene.sectionPlanesState.sectionPlanes.length ≤ uSP.length) :
    ((fctx.lastProgramId ≠ some p.id ∨
        rtcCenterDiffers layer.state.rtcCenter fctx.lastRTCCenter = true) →
      sectionPlaneWrites (drawLayer scene r fctx layer).ops =
        claimedSectionPlaneWrites uSP scene.sectionPlanesState.sectionPlanes
          layer.model.renderFlags.sectionPlanesActivePerLayer layer.layerIndex
          layer.state.rtcCenter) ∧
    (fctx.lastProgramId = some p.id ∧
        rtcCenterDiffers layer.state.rtcCenter fctx.lastRTCCenter = false →
      sectionPlaneWrites (drawLayer scene r fctx layer).ops = []) := by
  rw [drawLayer_eq_body scene r fctx layer p hp]
  rw [drawLayerBody_sectionPlaneWrites scene r fctx layer p hp]
  constructor
  · intro hcond
    have hload : ((fctx.lastProgramId != some p.id) ||
        rtcCenterDiffers layer.state.rtcCenter fctx.lastRTCCenter) = true := by
      rcases hcond with hne | hd
      · simp [hne]
      · simp [hd]
    rw [hload, sectionPlanesSection_ok r scene.sectionPlanesState.sectionPlanes
      layer uSP hu hlen]
    rfl
  · intro ⟨heq, hd⟩
    have hload : ((fctx.lastProgramId != some p.id) ||
        rtcCenterDiffers layer.state.rtcCenter fctx.lastRTCCenter) = false := by
      simp [heq, hd]
    rw [hload, sectionPlanesSection_false r scene.sectionPlanesState.sectionPlanes layer]
    rfl

/-- C3: section-plane uniforms are reloaded exactly when the program was
just (re)bound in this call or the layer's RTC center differs from
`frameCtx.lastRTCCenter` under component-wise value comparison
(including null/non-null transitions); otherwise no section-plane
uniform write is issued at all. -/
theorem section_plane_reload_iff (scene : Scene) (r : Renderer) (fctx : FrameCtx)
    (layer : BatchingLayer) (p : Program) (uSP : List SectionPlaneUniforms)
    (hp : r.program = some p) (hu : r.uSectionPlanes = some uSP)
    (hlen : scene.sectionPlanesState.sectionPlanes.length ≤ uSP.length) :
    ((fctx.lastProgramId ≠ some p.id ∨
        rtcCenterDiffers layer.state.rtcCenter fctx.lastRTCCenter = true) →
      sectionPlaneWrites (drawLayer scene r fctx layer).ops =
        claimedSectionPlaneWrites uSP scene.sectionPlanesState.sectionPlanes
          layer.model.renderFlags.sectionPlanesActivePerLayer layer.layerIndex
          layer.state.rtcCenter) ∧
    (fctx.lastProgramId = some p.id ∧
        rtcCenterDiffers layer.state.rtcCenter fctx.lastRTCCenter = false →
      sectionPlaneWrites (drawLayer scene r fctx layer).ops = []) :=
  sectionPlaneWrites_load_characterization scene r fctx layer p uSP hp hu hlen

/-- Witness for C3 at a concrete draw whose program was not yet bound. -/
theorem section_plane_reload_iff_witness :
    rOK.program = some okProgram ∧
    rOK.uSectionPlanes = some uSP2 ∧
    scene2.sectionPlanesState.sectionPlanes.length ≤ uSP2.length ∧
    (((fctx0.lastProgramId ≠ some okProgram.id ∨
        rtcCenterDiffers layerA.state.rtcCenter fctx0.lastRTCCenter = true) →
      sectionPlaneWrites (drawLayer scene2 rOK fctx0 layerA).ops =
        claimedSectionPlaneWrites uSP2 scene2.sectionPlanesState.sectionPlanes
          layerA.model.renderFlags.sectionPlanesActivePerLayer layerA.layerIndex
          layerA.state.rtcCenter) ∧
    (fctx0.lastProgramId = some okProgram.id ∧
        rtcCenterDiffers layerA.state.rtcCenter fctx0.lastRTCCenter = false →
      sectionPlaneWrites (drawLayer scene2 rOK fctx0 layerA).ops = [])) :=
  ⟨rfl, by decide, by decide,
   section_plane_reload_iff scene2 rOK fctx0 layerA okProgram uSP2 rfl (by decide)
     (by decide)⟩

/-- C7: when the section-plane uniforms are reloaded (here: the program
was just bound), the full write sequence is
`claimedSectionPlaneWrites`: per plane an `active` write taken from
`sectionPlanesActivePerLayer[layerIndex * numSectionPlanes + i]`, and —
as the accompanying equations state — inactive planes get nothing else,
while active planes get a position write (RTC-transformed exactly when
the layer has an RTC center) and a direction write. -/
theorem section_plane_write_content (scene : Scene) (r : Renderer) (fctx : FrameCtx)
    (layer : BatchingLayer) (p : Program) (uSP : List SectionPlaneUniforms)
    (hp : r.program = some p) (hu : r.uSectionPlanes = some uSP)
    (hlen : scene.sectionPlanesState.sectionPlanes.length ≤ uSP.length)
    (hb : fctx.lastProgramId ≠ some p.id) :
    sectionPlaneWrites (drawLayer scene r fctx layer).ops =
      claimedSectionPlaneWrites uSP scene.sectionPlanesState.sectionPlanes
        layer.model.renderFlags.sectionPlanesActivePerLayer layer.layerIndex
        layer.state.rtcCenter ∧
    (∀ u plane, spPlaneOps u plane false layer.state.rtcCenter =
      [GpuOp.uniform1i u.active 0]) ∧
    (∀ u plane c, spPlaneOps u plane true (some c) =
      [GpuOp.uniform1i u.active 1,
       GpuOp.uniform3fv u.pos (getPlaneRTCPos plane.dist plane.dir c),
       GpuOp.uniform3fv u.dir plane.dir]) ∧
    (∀ u plane, spPlaneOps u plane true none =
      [GpuOp.uniform1i u.active 1,
       GpuOp.uniform3fv u.pos plane.pos,
       GpuOp.uniform3fv u.dir plane.dir]) := by
  refine ⟨?_, fun u plane => rfl, fun u plane c => rfl, fun u plane => rfl⟩
  exact (sectionPlaneWrites_load_characterization scene r fctx layer p uSP hp hu
    hlen).1 (Or.inl hb)

/-- Witness for C7 at a concrete draw. -/
theorem section_plane_write_content_witness :
    rOK.program = some okProgram ∧
    rOK.uSectionPlanes = some uSP2 ∧
    scene2.sectionPlanesState.sectionPlanes.length ≤ uSP2.length ∧
    fctx0.lastProgramId ≠ some okProgram.id ∧
    (sectionPlaneWrites (drawLayer scene2 rOK fctx0 layerA).ops =
      claimedSectionPlaneWrites uSP2 scene2.sectionPlanesState.sectionPlanes
        layerA.model.renderFlags.sectionPlanesActivePerLayer layerA.layerIndex
        layerA.state.rtcCenter ∧
    (∀ u plane, spPlaneOps u plane false layerA.state.rtcCenter =
      [GpuOp.uniform1i u.active 0]) ∧
    (∀ u plane c, spPlaneOps u plane true (some c) =
      [GpuOp.uniform1i u.active 1,
       GpuOp.uniform3fv u.pos (getPlaneRTCPos plane.dist plane.dir c),
       GpuOp.uniform3fv u.dir plane.dir]) ∧
    (∀ u plane, spPlaneOps u plane true none =
      [GpuOp.uniform1i u.active 1,
       GpuOp.uniform3fv u.pos plane.pos,
       GpuOp.uniform3fv u.dir plane.dir])) :=
  ⟨rfl, by decide, by decide, by decide,
   section_plane_write_content scene2 rOK fctx0 layerA okProgram uSP2 rfl (by decide)
     (by decide) (by decide)⟩

/-- C8: in a draw that reaches the draw call, the position attribute is
always bound, and offset/color/flags2 are bound if and only if the
compiled shader declared them (`optPair none buf = []` and
`optPair (some h) buf = [(h, buf)]`, per the accompanying equations); an
absent attribute is never bound. -/
theorem attribute_binding_conditional (scene : Scene) (r : Renderer) (fctx : FrameCtx)
    (layer : BatchingLayer) (p : Program) (ap af : Nat)
    (uSP : List SectionPlaneUniforms) (hp : r.program = some p)
    (hu : r.uSectionPlanes = some uSP)
    (hlen : scene.sectionPlanesState.sectionPlanes.length ≤ uSP.length)
    (hpos : r.aPosition = some ap) (hfl : r.aFlags = some af) :
    (drawLayer scene r fctx layer).outcome = DrawOutcome.completed ∧
    attrBindPairs (drawLayer scene r fctx layer).ops =
      ((ap, layer.state.positionsBuf) ::
        (optPair r.aOffset layer.state.offsetsBuf ++
         optPair r.aColor layer.state.colorsBuf)) ++
      (af, layer.state.flagsBuf) :: optPair r.aFlags2 layer.state.flags2Buf ∧
    (∀ buf : Nat, optPair none buf = []) ∧
    (∀ h buf : Nat, optPair (some h) buf = [(h, buf)]) := by
  rw [drawLayer_eq_body scene r fctx layer p hp]
  obtain ⟨h1, h2⟩ := drawLayerBody_completed scene r fctx layer p ap af uSP hp hu hlen hpos hfl
  exact ⟨h1, h2, fun buf => rfl, fun h buf => rfl⟩

/-- Witness for C8: position/color/flags are bound, offset/flags2
(absent from the shader) are not. -/
theorem attribute_binding_conditional_witness :
    rOK.program = some okProgram ∧
    rOK.aPosition = some 40 ∧ rOK.aFlags = some 42 ∧
    ((drawLayer scene2 rOK fctx0 layerA).outcome = DrawOutcome.completed ∧
    attrBindPairs (drawLayer scene2 rOK fctx0 layerA).ops =
      ((40, layerA.state.positionsBuf) ::
        (optPair rOK.aOffset layerA.state.offsetsBuf ++
         optPair rOK.aColor layerA.state.colorsBuf)) ++
      (42, layerA.state.flagsBuf) :: optPair rOK.aFlags2 layerA.state.flags2Buf ∧
    (∀ buf : Nat, optPair none buf = []) ∧
    (∀ h buf : Nat, optPair (some h) buf = [(h, buf)])) :=
  ⟨rfl, rfl, rfl,
   attribute_binding_conditional scene2 rOK fctx0 layerA okProgram 40 42 uSP2 rfl
     (by decide) (by decide) rfl rfl⟩

theorem allocate_hash (scene : Scene) (r : Renderer) :
    (allocate scene r).hash = r.hash := by
  simp only [allocate]
  split <;> rfl

/-- C4: `getValid` turns false as soon as a section plane is added to or
removed from the scene (the cached hash no longer matches), and a
freshly (re)constructed renderer is valid for the scene it was allocated
against. -/
theorem getValid_add_remove_realloc (scene : Scene) (r : Renderer) (p : SectionPlane)
    (i : Nat) (hvalid : getValid r scene = true)
    (hi : i < scene.sectionPlanesState.sectionPlanes.length) :
    getValid r { scene with
      sectionPlanesState := addSectionPlane scene.sectionPlanesState p } = false ∧
    getValid r { scene with
      sectionPlanesState := removeSectionPlane scene.sectionPlanesState i } = false ∧
    (∀ scene2 : Scene, getValid (mkRenderer scene2) scene2 = true) := by
  have hhash : r.hash = getHash scene.sectionPlanesState := by
    have := hvalid
    unfold getValid at this
    exact eq_of_beq this
  refine ⟨?_, ?_, ?_⟩
  · unfold getValid
    rw [hhash]
    apply beq_eq_false_iff_ne.mpr
    intro hcontra
    have hlen := congrArg List.length hcontra
    simp only [getHash, addSectionPlane, List.length_map, List.length_append,
      List.length_cons, List.length_nil] at hlen
    omega
  · unfold getValid
    rw [hhash]
    apply beq_eq_false_iff_ne.mpr
    intro hcontra
    have hlen := congrArg List.length hcontra
    simp only [getHash, removeSectionPlane, List.length_map,
      List.length_eraseIdx] at hlen
    rw [if_pos hi] at hlen
    omega
  · intro scene2
    unfold getValid mkRenderer
    rw [allocate_hash]
    exact beq_self_eq_true _

/-- Witness for C4 at a concrete valid renderer and scene. -/
theorem getValid_add_remove_realloc_witness :
    getValid rOK scene2 = true ∧
    0 < scene2.sectionPlanesState.sectionPlanes.length ∧
    (getValid rOK { scene2 with
        sectionPlanesState := addSectionPlane scene2.sectionPlanesState plane0 } = false ∧
     getValid rOK { scene2 with
        sectionPlanesState := removeSectionPlane scene2.sectionPlanesState 0 } = false ∧
     (∀ scene3 : Scene, getValid (mkRenderer scene3) scene3 = true)) :=
  ⟨by decide, by decide,
   getValid_add_remove_realloc scene2 rOK plane0 0 (by decide) (by decide)⟩

def layer0 : BatchingLayer := layerA

/-- C1 counterexample: with a renderer whose program handle was
discarded (context loss) and a scene whose shader fails to compile, the
first `drawLayer` call is a no-op as claimed, but the very next
`drawLayer` call on the same renderer instance is NOT a no-op: the
failed allocation left `this._program` pointing at the failed Program
object, so the `!this._program` guard no longer fires and the call
proceeds to bind the program and write uniforms. -/
theorem failedAllocation_subsequent_draw_not_noop :
    (drawLayer badScene rBad fctx0 layer0).ops = [] ∧
    (drawLayer badScene (drawLayer badScene rBad fctx0 layer0).renderer
      (drawLayer badScene rBad fctx0 layer0).frameCtx layer0).ops ≠ [] ∧
    bindCount ((drawLayer badScene (drawLayer badScene rBad fctx0 layer0).renderer
      (drawLayer badScene rBad fctx0 layer0).frameCtx layer0).ops) = 1 := by
  refine ⟨by decide, by decide, by decide⟩

/-- C1 amended: if shader compilation fails during an allocation
performed inside `drawLayer` (the program handle was null at entry),
that call records the errors and returns without issuing any GPU call;
but subsequent `drawLayer` calls on the same renderer instance are not
guarded — every one of them issues GPU calls (at least the matrix
uniform writes) against the failed program. -/
theorem failedAllocation_first_call_skips_draw (scene : Scene) (r : Renderer)
    (fctx : FrameCtx) (layer : BatchingLayer) (h0 : r.program = none)
    (hc : scene.compileResult.errors.isSome = true) :
    (drawLayer scene r fctx layer).ops = [] ∧
    (drawLayer scene r fctx layer).outcome = DrawOutcome.earlyReturn ∧
    (drawLayer scene r fctx layer).renderer.errors = scene.compileResult.errors ∧
    (drawLayer scene r fctx layer).renderer.program = some scene.compileResult ∧
    ∀ fctx2 layer2,
      (drawLayer scene (drawLayer scene r fctx layer).renderer fctx2 layer2).ops ≠ [] := by
  have halloc : allocate scene r =
      { r with
        program := some scene.compileResult
        errors := scene.compileResult.errors } := by
    unfold allocate
    rw [if_pos hc]
  have hres : drawLayer scene r fctx layer =
      ⟨{ r with
          program := some scene.compileResult
          errors := scene.compileResult.errors }, fctx, [], DrawOutcome.earlyReturn⟩ := by
    unfold drawLayer
    rw [h0]
    simp only [halloc, hc, if_pos]
  rw [hres]
  refine ⟨rfl, rfl, rfl, rfl, ?_⟩
  intro fctx2 layer2
  have hp2 : ({ r with
      program := some scene.compileResult
      errors := scene.compileResult.errors } : Renderer).program =
      some scene.compileResult := rfl
  rw [drawLayer_eq_body scene _ fctx2 layer2 scene.compileResult hp2]
  obtain ⟨tail, hops, -, -⟩ := drawLayerBody_ops scene _ fctx2 layer2
    scene.compileResult hp2
  rw [hops]
  intro hnil
  rcases List.append_eq_nil.mp hnil with ⟨hnil2, -⟩
  rcases List.append_eq_nil.mp hnil2 with ⟨hnil3, -⟩
  rcases List.append_eq_nil.mp hnil3 with ⟨-, hms⟩
  exact absurd hms (by simp [matSegment])

/-- Witness for the amended C1 at the concrete failing scene. -/
theorem failedAllocation_first_call_skips_draw_witness :
    rBad.program = none ∧
    badScene.compileResult.errors.isSome = true ∧
    ((drawLayer badScene rBad fctx0 layer0).ops = [] ∧
    (drawLayer badScene rBad fctx0 layer0).outcome = DrawOutcome.earlyReturn ∧
    (drawLayer badScene rBad fctx0 layer0).renderer.errors =
      badScene.compileResult.errors ∧
    (drawLayer badScene rBad fctx0 layer0).renderer.program =
      some badScene.compileResult ∧
    ∀ fctx2 layer2,
      (drawLayer badScene (drawLayer badScene rBad fctx0 layer0).renderer
        fctx2 layer2).ops ≠ []) :=
  ⟨rfl, rfl, failedAllocation_first_call_skips_draw badScene rBad fctx0 layer0 rfl rfl⟩
